import Mathlib

/-!
Shallow embedding of the A.E.G.I.S repository (FastBrain llama.cpp wrapper,
model download helper, and test harness) for verification of its
specification.  Filesystem paths are modelled as lists of components, the
filesystem existence check as a boolean predicate on paths, the external
inference engine (llama_cpp.Llama) as an abstract function, Python floats
(temperature, top_p, wall-clock durations) as exact rationals, and Python
exceptions as an explicit error sum type.  Observable effects — model-load
attempts, chat-completion delegations, network downloads — are returned as
explicit traces so that claims about them can be stated.
-/

namespace Aegis

/-- A filesystem path, as its list of components. -/
abbrev Path := List String

/-- Rendering of a path as a string, as in a Python f-string over a Path. -/
def pathToString (p : Path) : String :=
  String.intercalate "/" p

/-- Error values corresponding to the Python exceptions that can arise in
the embedded code: FileNotFoundError from the FastBrain constructor, an
arbitrary engine-raised exception (payload carried unchanged), and the
IndexError that list indexing would raise. -/
inductive PyErr where
  | fileNotFound (msg : String)
  | engine (e : String)
  | indexError
deriving DecidableEq, Repr

/-- Python str.strip(): drops leading and trailing whitespace characters
(structural list recursion so that concrete instances reduce). -/
def strip (s : String) : String :=
  ⟨(((s.data.dropWhile Char.isWhitespace).reverse.dropWhile Char.isWhitespace).reverse)⟩

/-- Python str.lower(): lowercases every character. -/
def lower (s : String) : String :=
  ⟨s.data.map Char.toLower⟩

/-- From src/core/prompts.py: the registry constant AEGIS_SYSTEM_PROMPT. -/
def AEGIS_SYSTEM_PROMPT : String :=
  "You are A.E.G.I.S, a private, secure, local AI assistant. You are concise, helpful, and technical."

/-- From src/core/brains/fast_brain.py lines 18-22: the default model path
relative to the project root (the root itself comes from the installed
location of the file, so it is a parameter here). -/
def DEFAULT_MODEL_PATH (root : Path) : Path :=
  root ++ ["models", "fast_brain", "Meta-Llama-3.1-8B-Instruct-Q4_K_M.gguf"]

/-- One chat message, as a role/content dict in the Python source. -/
structure Message where
  role : String
  content : String
deriving DecidableEq, Repr

/-- One choice of an engine completion result (choices[i]["message"]). -/
structure Choice where
  message : Message
deriving DecidableEq, Repr

/-- The usage block of an engine completion result. -/
structure Usage where
  completion_tokens : Nat
deriving DecidableEq, Repr

/-- The structure of the dict returned by the engine's chat-completion
operation, as far as the wrapper reads it. -/
structure CompletionResult where
  choices : List Choice
  usage : Usage
deriving DecidableEq, Repr

/-- The external inference engine handle (llama_cpp.Llama): abstract,
characterised only by its chat-completion operation, which takes the
message list and the sampling parameters and either returns a completion
result or raises (payload of the raised exception as a string). -/
structure Llama where
  create_chat_completion : List Message → ℚ → ℚ → Nat → Except String CompletionResult

/-- A record of one attempted construction of the engine
(Llama(model_path=..., n_gpu_layers=..., n_ctx=..., verbose=False)). -/
structure LoadCall where
  model_path : String
  n_gpu_layers : Int
  n_ctx : Nat
  verbose : Bool
deriving Repr

/-- A record of one delegation to the engine's chat-completion operation,
with the conversation and sampling parameters passed. -/
structure EngineCall where
  messages : List Message
  temperature : ℚ
  top_p : ℚ
  max_tokens : Nat
deriving DecidableEq, Repr

/-- The FastBrain instance: its two fields, exactly as assigned by the
constructor in src/core/brains/fast_brain.py. -/
structure FastBrain where
  model_path : Path
  llm : Llama

/-- Model-path resolution, from fast_brain.py line 47
(`self.model_path = model_path or DEFAULT_MODEL_PATH`); an absent argument
(None) resolves to the default, an explicit path to itself. -/
def resolve_model_path (root : Path) (model_path : Option Path) : Path :=
  model_path.getD (DEFAULT_MODEL_PATH root)

/-- FastBrain.__init__, from fast_brain.py lines 32-66.  The engine
constructor and the filesystem existence check are abstract parameters;
the returned trace lists every attempted engine load.  Raising is
modelled as returning an error. -/
def FastBrain.init
    (LlamaCtor : String → Int → Nat → Bool → Except String Llama)
    (fs : Path → Bool) (root : Path)
    (model_path : Option Path := none)
    (n_gpu_layers : Int := -1)
    (n_ctx : Nat := 4096) :
    Except PyErr FastBrain × List LoadCall :=
  let mp : Path := resolve_model_path root model_path
  if fs mp = false then
    (Except.error (PyErr.fileNotFound
      ("Model not found at " ++ pathToString mp ++
       ". Run \x27python scripts/download_models.py\x27 first.")), [])
  else
    let call : LoadCall := ⟨pathToString mp, n_gpu_layers, n_ctx, false⟩
    match LlamaCtor (pathToString mp) n_gpu_layers n_ctx false with
    | Except.error e => (Except.error (PyErr.engine e), [call])
    | Except.ok llm => (Except.ok ⟨mp, llm⟩, [call])

/-- The throughput expression of fast_brain.py line 117
(`tokens_per_sec = token_count / elapsed if elapsed > 0 else 0.0`). -/
def tokens_per_sec (token_count : Nat) (elapsed : ℚ) : ℚ :=
  if elapsed > 0 then (token_count : ℚ) / elapsed else 0

/-- Everything observable about one generate_response call: the returned
value (or the propagated exception), the delegations made to the engine,
the throughput figure logged (none when the call raised before logging),
and the instance state after the call. -/
structure GenOutcome where
  result : Except PyErr String
  engineCalls : List EngineCall
  loggedTokensPerSec : Option ℚ
  finalSelf : FastBrain

/-- FastBrain.generate_response, from fast_brain.py lines 68-119.  The
wall-clock duration measured around the engine call is external input, so
it is a parameter `elapsed`.  Dict/list access `result["choices"][0]`
raises IndexError when the choices list is empty. -/
def FastBrain.generate_response (self : FastBrain) (elapsed : ℚ)
    (user_input : String)
    (system_prompt : String := AEGIS_SYSTEM_PROMPT)
    (temperature : ℚ := 0.7)
    (top_p : ℚ := 0.9)
    (max_tokens : Nat := 1024) :
    GenOutcome :=
  let messages : List Message :=
    [⟨"system", system_prompt⟩, ⟨"user", user_input⟩]
  let call : EngineCall := ⟨messages, temperature, top_p, max_tokens⟩
  match self.llm.create_chat_completion messages temperature top_p max_tokens with
  | Except.error e => ⟨Except.error (PyErr.engine e), [call], none, self⟩
  | Except.ok res =>
      match res.choices.head? with
      | none => ⟨Except.error PyErr.indexError, [call], none, self⟩
      | some c =>
          let response_text : String := c.message.content
          let token_count : Nat := res.usage.completion_tokens
          ⟨Except.ok response_text, [call],
           some (tokens_per_sec token_count elapsed), self⟩

/-- run_interactive_loop, from tests/test_fast_brain.py lines 31-56.  The
sequence of lines typed by the user is the input list (end of list models
EOF/interrupt); the returned list is the sequence of user inputs passed to
generate_response, in order. -/
def run_interactive_loop (lines : List String) : List String :=
  match lines with
  | [] => []
  | line :: rest =>
      let user_input := strip line
      if user_input = "" then run_interactive_loop rest
      else if lower user_input = "quit" ∨ lower user_input = "exit" then []
      else user_input :: run_interactive_loop rest

/-- run_smoke_test, from tests/test_fast_brain.py lines 58-79: one
generate_response round trip on the fixed prompt; an exception propagates,
otherwise the result is whether the response is truthy and non-empty after
stripping. -/
def run_smoke_test (brain : FastBrain) (elapsed : ℚ) : Except PyErr Bool :=
  match (brain.generate_response elapsed "What is 2 + 2? Answer in one word.").result with
  | Except.error e => Except.error e
  | Except.ok response =>
      if response ≠ "" ∧ (strip response).length > 0 then Except.ok true
      else Except.ok false

/-- The process exit code of `python tests/test_fast_brain.py --smoke`
(main, lines 96-98): 0 when the smoke test returns True, 1 when it returns
False; an exception escaping main terminates the Python process with
exit code 1. -/
def smoke_main_exit_code (brain : FastBrain) (elapsed : ℚ) : Nat :=
  match run_smoke_test brain elapsed with
  | Except.error _ => 1
  | Except.ok success => if success then 0 else 1

/-- From scripts/download_models.py line 21. -/
def REPO_ID : String := "bartowski/Meta-Llama-3.1-8B-Instruct-GGUF"

/-- From scripts/download_models.py line 22. -/
def FILENAME : String := "Meta-Llama-3.1-8B-Instruct-Q4_K_M.gguf"

/-- From scripts/download_models.py line 25 (project root abstracted). -/
def MODEL_DIR (root : Path) : Path := root ++ ["models", "fast_brain"]

/-- A record of one network transfer performed through hf_hub_download. -/
structure DownloadCall where
  repo_id : String
  filename : String
  local_dir : Path
deriving DecidableEq, Repr

/-- download_fast_brain_model, from scripts/download_models.py lines 28-53.
The hub client is abstract (given the repo id, filename and local dir it
yields the downloaded path); the returned trace lists every network
transfer performed. -/
def download_fast_brain_model (root : Path) (fs : Path → Bool)
    (hf_hub_download : String → String → Path → Path) :
    Path × List DownloadCall :=
  let model_path := MODEL_DIR root ++ [FILENAME]
  if fs model_path then (model_path, [])
  else
    let downloaded_path := hf_hub_download REPO_ID FILENAME (MODEL_DIR root)
    (downloaded_path, [⟨REPO_ID, FILENAME, MODEL_DIR root⟩])

/-- A concrete engine for witnesses: one choice with text "Four", three
completion tokens, for every request. -/
def llamaW : Llama :=
  ⟨fun _ _ _ _ => Except.ok ⟨[⟨⟨"assistant", "Four"⟩⟩], ⟨3⟩⟩⟩

/-- A concrete FastBrain instance for witnesses. -/
def brainW : FastBrain :=
  ⟨["r", "models", "fast_brain", "Meta-Llama-3.1-8B-Instruct-Q4_K_M.gguf"], llamaW⟩

/-! ## Helper lemmas -/

/-- generate_response leaves the instance unchanged, in every branch. -/
theorem genResp_finalSelf_eq (b : FastBrain) (e : ℚ) (u sys : String)
    (t p : ℚ) (m : Nat) :
    (b.generate_response e u sys t p m).finalSelf = b := by
  cases hcc : b.llm.create_chat_completion
      [⟨"system", sys⟩, ⟨"user", u⟩] t p m with
  | error err => simp [FastBrain.generate_response, hcc]
  | ok res =>
    cases hh : res.choices.head? with
    | none => simp [FastBrain.generate_response, hcc, hh]
    | some c => simp [FastBrain.generate_response, hcc, hh]

/-- generate_response delegates to the engine exactly once, with the
two-message conversation and the given sampling parameters, in every
branch. -/
theorem genResp_engineCalls_eq (b : FastBrain) (e : ℚ) (u sys : String)
    (t p : ℚ) (m : Nat) :
    (b.generate_response e u sys t p m).engineCalls =
      [⟨[⟨"system", sys⟩, ⟨"user", u⟩], t, p, m⟩] := by
  cases hcc : b.llm.create_chat_completion
      [⟨"system", sys⟩, ⟨"user", u⟩] t p m with
  | error err => simp [FastBrain.generate_response, hcc]
  | ok res =>
    cases hh : res.choices.head? with
    | none => simp [FastBrain.generate_response, hcc, hh]
    | some c => simp [FastBrain.generate_response, hcc, hh]

/-- A string has positive length exactly when it is not the empty string. -/
theorem string_length_pos_iff (s : String) : s.length > 0 ↔ s ≠ "" := by
  obtain ⟨l⟩ := s
  constructor
  · intro h he
    have : l = [] := by
      have := congrArg String.data he
      simpa using this
    subst this
    simp [String.length] at h
  · intro h
    have hl : l ≠ [] := by
      intro hnil
      exact h (by simp [hnil])
    simpa [String.length] using List.length_pos.mpr hl

/-! ## Claim theorems -/

/-- C1: constructing FastBrain on a resolved model path that does not
exist on disk fails with the "model not found" error whose message names
the missing path and the download-helper remediation, and the construction
performs no model-load attempt: the outcome is this error with an empty
load trace, for every engine constructor. -/
theorem construction_missing_model_fails_without_load
    (LlamaCtor : String → Int → Nat → Bool → Except String Llama)
    (fs : Path → Bool) (root : Path) (model_path : Option Path)
    (n_gpu_layers : Int) (n_ctx : Nat)
    (h : fs (resolve_model_path root model_path) = false) :
    FastBrain.init LlamaCtor fs root model_path n_gpu_layers n_ctx =
      (Except.error (PyErr.fileNotFound
        ("Model not found at " ++
         pathToString (resolve_model_path root model_path) ++
         ". Run \x27python scripts/download_models.py\x27 first.")), []) := by
  unfold FastBrain.init
  simp [h]

/-- Witness for C1 at a concrete constructor, filesystem and root. -/
theorem construction_missing_model_fails_without_load_witness :
    FastBrain.init (fun _ _ _ _ => Except.ok llamaW) (fun _ => false)
        ["r"] none (-1) 4096 =
      (Except.error (PyErr.fileNotFound
        ("Model not found at " ++
         pathToString (resolve_model_path ["r"] none) ++
         ". Run \x27python scripts/download_models.py\x27 first.")), []) :=
  construction_missing_model_fails_without_load
    (fun _ _ _ _ => Except.ok llamaW) (fun _ => false) ["r"] none (-1) 4096 rfl

/-- C2: for every user input (the empty string included), system prompt
and sampling parameters, generate_response delegates exactly once to the
engine's chat-completion operation, passing exactly the two-message
conversation [system, user] with both texts unchanged and those sampling
parameters; and whenever the engine returns a result, the returned value
is the text of the result's first choice, as a plain string. -/
theorem generate_response_two_message_delegation
    (b : FastBrain) (e : ℚ) (u sys : String) (t p : ℚ) (m : Nat) :
    (b.generate_response e u sys t p m).engineCalls =
      [⟨[⟨"system", sys⟩, ⟨"user", u⟩], t, p, m⟩]
    ∧ ∀ res c,
        b.llm.create_chat_completion [⟨"system", sys⟩, ⟨"user", u⟩] t p m =
          Except.ok res →
        res.choices.head? = some c →
        (b.generate_response e u sys t p m).result =
          Except.ok c.message.content := by
  refine ⟨genResp_engineCalls_eq b e u sys t p m, ?_⟩
  intro res c hcc hhead
  simp [FastBrain.generate_response, hcc, hhead]

/-- Witness for C2 at a concrete instance and engine result. -/
theorem generate_response_two_message_delegation_witness :
    (brainW.generate_response 1 "hi" "sys" 1 1 8).result = Except.ok "Four" :=
  (generate_response_two_message_delegation brainW 1 "hi" "sys" 1 1 8).2
    ⟨[⟨⟨"assistant", "Four"⟩⟩], ⟨3⟩⟩ ⟨⟨"assistant", "Four"⟩⟩ rfl rfl

/-- C3: the throughput metric of generate_response never divides by zero:
for every completion-token count, a zero measured elapsed time yields a
reported zero, and a nonzero (nonnegative) elapsed time yields the token
count divided by the elapsed time; and on a successful call
generate_response logs exactly this metric. -/
theorem tokens_per_sec_no_div_by_zero (token_count : Nat) (elapsed : ℚ)
    (h : 0 ≤ elapsed) :
    (elapsed = 0 → tokens_per_sec token_count elapsed = 0)
    ∧ (elapsed ≠ 0 →
        tokens_per_sec token_count elapsed = (token_count : ℚ) / elapsed)
    ∧ ∀ (b : FastBrain) (u sys : String) (t p : ℚ) (m : Nat) res c,
        b.llm.create_chat_completion [⟨"system", sys⟩, ⟨"user", u⟩] t p m =
          Except.ok res →
        res.choices.head? = some c →
        (b.generate_response elapsed u sys t p m).loggedTokensPerSec =
          some (tokens_per_sec res.usage.completion_tokens elapsed) := by
  refine ⟨?_, ?_, ?_⟩
  · intro h0
    simp [tokens_per_sec, h0]
  · intro h0
    have hpos : 0 < elapsed := lt_of_le_of_ne h (Ne.symm h0)
    simp [tokens_per_sec, hpos]
  · intro b u sys t p m res c hcc hhead
    simp [FastBrain.generate_response, hcc, hhead]

/-- Witness for C3 at token count 5 and elapsed time 0. -/
theorem tokens_per_sec_no_div_by_zero_witness : tokens_per_sec 5 0 = 0 :=
  (tokens_per_sec_no_div_by_zero 5 0 le_rfl).1 rfl

/-- C4: when generate_response returns a response, the smoke-test process
exit code is 0 exactly when the response is non-empty after stripping
whitespace, and 1 when the stripped response is empty. -/
theorem smoke_exit_code_iff_nonempty_after_strip
    (brain : FastBrain) (elapsed : ℚ) (response : String)
    (h : (brain.generate_response elapsed
            "What is 2 + 2? Answer in one word.").result = Except.ok response) :
    (smoke_main_exit_code brain elapsed = 0 ↔ strip response ≠ "")
    ∧ (strip response = "" → smoke_main_exit_code brain elapsed = 1) := by
  have hcond : (response ≠ "" ∧ (strip response).length > 0) ↔
      strip response ≠ "" := by
    constructor
    · rintro ⟨-, hlen⟩
      exact (string_length_pos_iff (strip response)).mp hlen
    · intro hs
      refine ⟨?_, (string_length_pos_iff (strip response)).mpr hs⟩
      intro he
      subst he
      exact hs rfl
  unfold smoke_main_exit_code run_smoke_test
  rw [h]
  constructor
  · by_cases hc : response ≠ "" ∧ (strip response).length > 0
    · simp only [if_pos hc]
      simpa using hcond.mp hc
    · simp only [if_neg hc]
      constructor
      · intro h10
        simp at h10
      · intro hs
        exact absurd (hcond.mpr hs) hc
  · intro hs
    have hc : ¬(response ≠ "" ∧ (strip response).length > 0) := by
      intro hcc
      exact (hcond.mp hcc) hs
    simp [if_neg hc]

/-- Witness for C4 at a concrete instance whose engine answers "Four". -/
theorem smoke_exit_code_iff_nonempty_after_strip_witness :
    smoke_main_exit_code brainW 1 = 0 :=
  (smoke_exit_code_iff_nonempty_after_strip brainW 1 "Four" rfl).1.mpr
    (by decide)

/-- C5: generate_response is stateless across turns: a call leaves the
instance (its model path and engine handle) unchanged, and a second call
with a different user input builds a conversation that is exactly the
system message followed by the second input — no trace of the first
call's input. -/
theorem generate_response_stateless
    (b : FastBrain) (e1 e2 : ℚ) (u1 u2 : String) :
    ((b.generate_response e1 u1).finalSelf = b)
    ∧ ((b.generate_response e1 u1).finalSelf.model_path = b.model_path)
    ∧ ((b.generate_response e1 u1).finalSelf.llm = b.llm)
    ∧ (((b.generate_response e1 u1).finalSelf.generate_response e2 u2).engineCalls.map
          EngineCall.messages =
        [[⟨"system", AEGIS_SYSTEM_PROMPT⟩, ⟨"user", u2⟩]]) := by
  have hself := genResp_finalSelf_eq b e1 u1 AEGIS_SYSTEM_PROMPT 0.7 0.9 1024
  refine ⟨hself, by rw [hself], by rw [hself], ?_⟩
  rw [hself, genResp_engineCalls_eq b e2 u2 AEGIS_SYSTEM_PROMPT 0.7 0.9 1024]
  rfl

/-- C6: every engine failure propagates to the caller with its payload
unmodified, with no retry, wrapping or suppression: a failing engine
construction surfaces as exactly that engine error after a single load
attempt, and a failing chat completion surfaces as exactly that engine
error after a single delegation. -/
theorem engine_failures_propagate_unmodified
    (LlamaCtor : String → Int → Nat → Bool → Except String Llama)
    (fs : Path → Bool) (root : Path) (model_path : Option Path)
    (n_gpu_layers : Int) (n_ctx : Nat) (e : String)
    (hfs : fs (resolve_model_path root model_path) = true)
    (hctor : LlamaCtor (pathToString (resolve_model_path root model_path))
        n_gpu_layers n_ctx false = Except.error e) :
    (FastBrain.init LlamaCtor fs root model_path n_gpu_layers n_ctx =
        (Except.error (PyErr.engine e),
         [⟨pathToString (resolve_model_path root model_path),
           n_gpu_layers, n_ctx, false⟩]))
    ∧ ∀ (b : FastBrain) (el : ℚ) (u sys : String) (t p : ℚ) (m : Nat)
        (e2 : String),
        b.llm.create_chat_completion [⟨"system", sys⟩, ⟨"user", u⟩] t p m =
          Except.error e2 →
        (b.generate_response el u sys t p m).result =
            Except.error (PyErr.engine e2)
        ∧ (b.generate_response el u sys t p m).engineCalls.length = 1 := by
  constructor
  · unfold FastBrain.init
    simp [hfs, hctor]
  · intro b el u sys t p m e2 hcc
    constructor
    · simp [FastBrain.generate_response, hcc]
    · rw [genResp_engineCalls_eq]
      rfl

/-- Witness for C6 at a concrete failing engine constructor. -/
theorem engine_failures_propagate_unmodified_witness :
    FastBrain.init (fun _ _ _ _ => Except.error "boom") (fun _ => true)
        ["r"] none (-1) 4096 =
      (Except.error (PyErr.engine "boom"),
       [⟨pathToString (resolve_model_path ["r"] none), -1, 4096, false⟩]) :=
  (engine_failures_propagate_unmodified
    (fun _ _ _ _ => Except.error "boom") (fun _ => true) ["r"] none
    (-1) 4096 "boom" rfl rfl).1

/-- C7: model-path resolution returns an explicitly supplied path as is,
and with no path supplied returns the fixed default location
models/fast_brain/<model-filename> under the project root; it is a pure
function of its arguments (no existence check, no side effects). -/
theorem resolve_model_path_contract (root p : Path) :
    resolve_model_path root (some p) = p
    ∧ resolve_model_path root none =
        root ++ ["models", "fast_brain",
                 "Meta-Llama-3.1-8B-Instruct-Q4_K_M.gguf"] :=
  ⟨rfl, rfl⟩

/-- C8: the public interface defaults are exactly as specified: the
constructor defaults the model path to None (resolved to the registry
default), GPU-layer offload to -1 (all layers) and the context window to
4096; generate_response defaults the system prompt to the registry
constant, temperature to 0.7, top_p to 0.9 and max_tokens to 1024. -/
theorem interface_defaults
    (LlamaCtor : String → Int → Nat → Bool → Except String Llama)
    (fs : Path → Bool) (root : Path)
    (b : FastBrain) (el : ℚ) (u : String) :
    FastBrain.init LlamaCtor fs root =
      FastBrain.init LlamaCtor fs root none (-1) 4096
    ∧ b.generate_response el u =
        b.generate_response el u AEGIS_SYSTEM_PROMPT 0.7 0.9 1024 :=
  ⟨rfl, rfl⟩

/-- C9: the download helper is idempotent: whenever the target model file
already exists, it performs no network transfer and returns the existing
file's path, so a second invocation (with any downloader behaviour)
returns the same path. -/
theorem download_idempotent_when_present
    (root : Path) (fs : Path → Bool)
    (dl1 dl2 : String → String → Path → Path)
    (h : fs (MODEL_DIR root ++ [FILENAME]) = true) :
    download_fast_brain_model root fs dl1 = (MODEL_DIR root ++ [FILENAME], [])
    ∧ (download_fast_brain_model root fs dl1).1 =
        (download_fast_brain_model root fs dl2).1 := by
  unfold download_fast_brain_model
  simp [h]

/-- Witness for C9 at a filesystem on which the artifact is present. -/
theorem download_idempotent_when_present_witness :
    download_fast_brain_model ["r"] (fun _ => true) (fun _ _ d => d) =
      (MODEL_DIR ["r"] ++ [FILENAME], []) :=
  (download_idempotent_when_present ["r"] (fun _ => true)
    (fun _ _ d => d) (fun _ _ d => d) rfl).1

/-- C10: in every iteration of the interactive loop the read line is
stripped before use — every input passed to generate_response is the
stripped form of some read line, is non-empty and is not (case
insensitively) quit or exit; and a line whose stripped form is quit or
exit terminates the loop with no generate_response call, whatever follows
it. -/
theorem interactive_loop_strips_and_guards (lines : List String) :
    (∀ s ∈ run_interactive_loop lines,
      (∃ l ∈ lines, s = strip l) ∧ s ≠ "" ∧
        lower s ≠ "quit" ∧ lower s ≠ "exit")
    ∧ ∀ l rest,
        (lower (strip l) = "quit" ∨ lower (strip l) = "exit") →
        run_interactive_loop (l :: rest) = [] := by
  constructor
  · induction lines with
    | nil =>
      intro s hs
      simp [run_interactive_loop] at hs
    | cons line rest ih =>
      intro s hs
      rw [show run_interactive_loop (line :: rest) =
            if strip line = "" then run_interactive_loop rest
            else if lower (strip line) = "quit" ∨ lower (strip line) = "exit"
              then []
              else strip line :: run_interactive_loop rest from rfl] at hs
      by_cases h0 : strip line = ""
      · rw [if_pos h0] at hs
        obtain ⟨⟨l, hl, hsl⟩, h2⟩ := ih s hs
        exact ⟨⟨l, List.mem_cons_of_mem _ hl, hsl⟩, h2⟩
      · rw [if_neg h0] at hs
        by_cases hq : lower (strip line) = "quit" ∨ lower (strip line) = "exit"
        · rw [if_pos hq] at hs
          simp at hs
        · rw [if_neg hq] at hs
          push_neg at hq
          rcases List.mem_cons.mp hs with hhead | htail
          · subst hhead
            exact ⟨⟨line, List.mem_cons_self _ _, rfl⟩, h0, hq.1, hq.2⟩
          · obtain ⟨⟨l, hl, hsl⟩, h2⟩ := ih s htail
            exact ⟨⟨l, List.mem_cons_of_mem _ hl, hsl⟩, h2⟩
  · intro l rest hql
    by_cases h0 : strip l = ""
    · exfalso
      rw [h0] at hql
      exact absurd hql (by decide)
    · rw [show run_interactive_loop (l :: rest) =
            if strip l = "" then run_interactive_loop rest
            else if lower (strip l) = "quit" ∨ lower (strip l) = "exit"
              then []
              else strip l :: run_interactive_loop rest from rfl]
      rw [if_neg h0, if_pos hql]

/-- Witness for C10: a quit line terminates the loop at once. -/
theorem interactive_loop_strips_and_guards_witness :
    run_interactive_loop ["QUIT", "boom"] = [] :=
  (interactive_loop_strips_and_guards []).2 "QUIT" ["boom"]
    (Or.inl (by decide))

end Aegis
